import Mathlib

/-!
Shallow embedding of the command-line entrypoint of the Omni bare-metal
infra provider (`cmd/provider/main.go`).

The entrypoint wires signal handling (`signal.NotifyContext`), the cobra
root command (`rootCmd`, `Args: cobra.NoArgs`), logger initialisation, the
`run` function (which builds the provider from the single `providerOptions`
value and runs it), and an `init` function registering every command-line
flag.  Flags are embedded as a list of `Flag` records mirroring the
registration calls in `init`, in source order; the context plumbing of
`runCmd` / `rootCmd.RunE` / `run` / `main` is embedded as pure functions
that additionally record which arguments `provider.New` and `prov.Run`
were invoked with.
-/

/-- OS signals, as used by `signal.NotifyContext(ctx, syscall.SIGTERM, os.Interrupt)`.
`other n` stands for any signal that is neither SIGTERM nor an interrupt. -/
inductive Signal
  | sigterm
  | interrupt
  | other (n : Nat)
  deriving DecidableEq

/-- A `context.Context`, modelled by the set (list) of signals whose receipt
cancels it.  `context.Background()` is cancelled by no signal;
`signal.NotifyContext(parent, sigs...)` is cancelled by the parent's signals
plus `sigs`. -/
structure Ctx where
  cancelSignals : List Signal
  deriving DecidableEq

/-- `context.Background()`. -/
def backgroundCtx : Ctx := ⟨[]⟩

/-- `signal.NotifyContext(parent, sigs...)`. -/
def notifyContext (parent : Ctx) (sigs : List Signal) : Ctx :=
  ⟨parent.cancelSignals ++ sigs⟩

/-- Whether receipt of signal `s` cancels context `c`. -/
def Ctx.cancelledBy (c : Ctx) (s : Signal) : Bool :=
  c.cancelSignals.contains s

/-- Go error values as the entrypoint manipulates them: either a base error
(from a collaborator such as `provider.Run` or cobra's argument validation)
or a wrapping produced by `fmt.Errorf("...: %w", err)`. -/
inductive GoError
  | base (msg : String)
  | wrap (msg : String) (cause : GoError)
  deriving DecidableEq

/-- `errors.Unwrap`: a `fmt.Errorf` `%w`-wrapping exposes its cause. -/
def GoError.unwrap : GoError → Option GoError
  | .wrap _ cause => some cause
  | .base _ => none

/-- The pflag registration kind used for a flag in `init`:
`StringVar`, `BoolVar`, `IntVar`, `DurationVar`, `StringSliceVar`, or
`Var` (a custom `pflag.Value`, used only for the provider id). -/
inductive FlagKind
  | string
  | bool
  | int
  | duration
  | stringSlice
  | value
  deriving DecidableEq

/-- The variable a flag registration writes into: a field of the package-level
`providerOptions provider.Options` value (named by its field path), the
`meta.ProviderID` value, or the package-level `debug` boolean. -/
inductive Target
  | opt (field : String)
  | metaProviderID
  | debugVar
  deriving DecidableEq

/-- Whether a flag target is a field of `providerOptions`. -/
def Target.isOpt : Target → Bool
  | .opt _ => true
  | .metaProviderID => false
  | .debugVar => false

/-- The default value passed at flag registration: a field of
`provider.DefaultOptions` (named by its field path), a string computed at
registration time (used for `os.Getenv("OMNI_ENDPOINT")`), a boolean
literal, or — for `Var` registrations — the variable's current value. -/
inductive FlagDefault
  | fromDefaultOptions (field : String)
  | lit (s : String)
  | boolLit (b : Bool)
  | varCurrent
  deriving DecidableEq

/-- `ipxe.BootFromDiskMethod` constants referenced by `init`
(`ipxe.BootIPXEExit`, `ipxe.Boot404`, `ipxe.BootSANDisk`). -/
inductive BootFromDiskMethod
  | BootIPXEExit
  | Boot404
  | BootSANDisk
  deriving DecidableEq

/-- `pxe.BootMode` constants referenced by `init`
(`pxe.BootModeBIOS`, `pxe.BootModeUEFI`). -/
inductive BootMode
  | BootModeBIOS
  | BootModeUEFI
  deriving DecidableEq

/-- An argument interpolated into a flag's usage string by `fmt.Sprintf`:
the slice of valid boot-from-disk methods, the slice of valid PXE boot
modes, the external constant `config.TestModeKernelArg`, or the name of
another flag. -/
inductive UsageArg
  | bootFromDiskMethods (vs : List BootFromDiskMethod)
  | pxeBootModes (vs : List BootMode)
  | testModeKernelArg
  | flagNameRef (s : String)
  deriving DecidableEq

/-- One flag registration performed by `init` on `rootCmd.Flags()`.
(Named `CmdFlag` because Mathlib already declares `Flag`.) -/
structure CmdFlag where
  name : String
  kind : FlagKind
  target : Target
  dflt : FlagDefault
  usage : String
  usageArgs : List UsageArg := []
  deriving DecidableEq

/-- Does the character list `s` start with `pat`? -/
def charsStartWith : List Char → List Char → Bool
  | _, [] => true
  | [], _ :: _ => false
  | c :: cs, p :: ps => c == p && charsStartWith cs ps

/-- Does the character list `s` contain `pat` as a contiguous run? -/
def charsContain : List Char → List Char → Bool
  | [], pat => pat.isEmpty
  | c :: cs, pat => charsStartWith (c :: cs) pat || charsContain cs pat

/-- Substring test on strings, used to classify usage texts. -/
def strContains (s pat : String) : Bool :=
  charsContain s.toList pat.toList

/-- `os.Getenv`: the value of an environment variable, or `""` when the
variable is unset.  `env` is the process environment. -/
def getenv (env : String → Option String) (n : String) : String :=
  (env n).getD ""

/-- The slice `[]ipxe.BootFromDiskMethod{ipxe.BootIPXEExit, ipxe.Boot404, ipxe.BootSANDisk}`
interpolated into the `boot-from-disk-method` usage text. -/
def bootFromDiskMethodChoices : List BootFromDiskMethod :=
  [.BootIPXEExit, .Boot404, .BootSANDisk]

/-- The slice `[]pxe.BootMode{pxe.BootModeBIOS, pxe.BootModeUEFI}` interpolated
into the `ipmi-pxe-boot-mode` usage text. -/
def pxeBootModeChoices : List BootMode :=
  [.BootModeBIOS, .BootModeUEFI]

/-- The flag registrations performed by `init`, in source order.

`isDebugBuild` is `constants.IsDebugBuild` (the `internal/constants` package
is outside the embedded sources; `init` guards the `clear-state`
registration on it).  `omniEndpointEnv` is the value of
`os.Getenv("OMNI_ENDPOINT")` at registration time.  Usage texts are the Go
literals; for the usages built with `fmt.Sprintf` the format string is kept
and the interpolated arguments are recorded in `usageArgs`. -/
def registeredFlags (isDebugBuild : Bool) (omniEndpointEnv : String) : List CmdFlag :=
  [⟨"id", .value, .metaProviderID, .varCurrent,
    "The id of the infra provider, it is used to match the resources with the infra provider label.", []⟩,
   ⟨"debug", .bool, .debugVar, .boolLit false, "Enable debug mode & logs.", []⟩,
   ⟨"api-listen-address", .string, .opt "APIListenAddress", .fromDefaultOptions "APIListenAddress",
    "The IP address to listen on. If not specified, the server will listen on all interfaces.", []⟩,
   ⟨"api-advertise-address", .string, .opt "APIAdvertiseAddress", .fromDefaultOptions "APIAdvertiseAddress",
    "The IP address to advertise. Required if the server has more than a single routable IP address. If not specified, the single routable IP address will be used.", []⟩,
   ⟨"api-port", .int, .opt "APIPort", .fromDefaultOptions "APIPort", "The port to run the api server on.", []⟩,
   ⟨"omni-api-endpoint", .string, .opt "OmniAPIEndpoint", .lit omniEndpointEnv,
    "The endpoint of the Omni API, if not set, defaults to OMNI_ENDPOINT env var.", []⟩,
   ⟨"provider-name", .string, .opt "Name", .fromDefaultOptions "Name", "Provider name as it appears in Omni", []⟩,
   ⟨"provider-description", .string, .opt "Description", .fromDefaultOptions "Description",
    "Provider description as it appears in Omni", []⟩,
   ⟨"use-local-boot-assets", .bool, .opt "UseLocalBootAssets", .fromDefaultOptions "UseLocalBootAssets",
    "Use local boot assets for iPXE booting. If set, the iPXE server will use the kernel and initramfs from the local assets instead of forwarding the request to the image factory to boot into agent mode.", []⟩,
   ⟨"dhcp-proxy-iface-or-ip", .string, .opt "DHCPProxyIfaceOrIP", .fromDefaultOptions "DHCPProxyIfaceOrIP",
    "The interface name or the IP address on the interface to run the DHCP proxy server on. If it is an IP address, the DHCP proxy server will run on the interface that has the IP address. If not specified, defaults to the API advertise address.", []⟩,
   ⟨"image-factory-base-url", .string, .opt "ImageFactoryBaseURL", .fromDefaultOptions "ImageFactoryBaseURL",
    "The base URL of the image factory.", []⟩,
   ⟨"image-factory-pxe-base-url", .string, .opt "ImageFactoryPXEBaseURL", .fromDefaultOptions "ImageFactoryPXEBaseURL",
    "The base URL of the image factory PXE server.", []⟩,
   ⟨"agent-mode-talos-version", .string, .opt "AgentModeTalosVersion", .fromDefaultOptions "AgentModeTalosVersion",
    "The default Talos version to when forwarding iPXE requests to the image factory to boot into Talos agent.", []⟩,
   ⟨"agent-test-mode", .bool, .opt "AgentTestMode", .fromDefaultOptions "AgentTestMode",
    "Enable agent test mode. In this mode, the Talos agent will be booted into the test mode via the kernel arg %q. In this mode, you probably want to set the \"--%s\" flag, as the test mode agents are probably QEMU machines whose power is managed over the HTTP API.",
    [.testModeKernelArg, .flagNameRef "api-power-mgmt-state-dir"]⟩,
   ⟨"api-power-mgmt-state-dir", .string, .opt "APIPowerMgmtStateDir", .fromDefaultOptions "APIPowerMgmtStateDir",
    "The directory to read the power management API endpoints and ports, to be used to manage the power state of the machines which are managed via API (e.g., QEMU VMs created by \x27qemu-up\x27 or \x27talosctl cluster create\x27) Mainly used for testing purposes.", []⟩,
   ⟨"boot-from-disk-method", .string, .opt "BootFromDiskMethod", .fromDefaultOptions "BootFromDiskMethod",
    "Default method to use to boot server from disk if it hits iPXE endpoint after install. Valid values are: %v",
    [.bootFromDiskMethods bootFromDiskMethodChoices]⟩,
   ⟨"ipmi-pxe-boot-mode", .string, .opt "IPMIPXEBootMode", .fromDefaultOptions "IPMIPXEBootMode",
    "Default boot mode to use when PXE booting a machine via IPMI. Valid values are: %v",
    [.pxeBootModes pxeBootModeChoices]⟩,
   ⟨"machine-labels", .stringSlice, .opt "MachineLabels", .fromDefaultOptions "MachineLabels",
    "Comma separated list of key=value pairs to be set to the machine. Example: key1=value1,key2,key3=value3", []⟩,
   ⟨"insecure-skip-tls-verify", .bool, .opt "InsecureSkipTLSVerify", .fromDefaultOptions "InsecureSkipTLSVerify",
    "Skip TLS verification when connecting to the Omni API.", []⟩,
   ⟨"min-reboot-interval", .duration, .opt "MinRebootInterval", .fromDefaultOptions "MinRebootInterval",
    "the minimum interval between reboots of the machine issued by the provider. This is to prevent the provider from issuing reboots too frequently.", []⟩]
  ++ (if isDebugBuild then
       [⟨"clear-state", .bool, .opt "ClearState", .fromDefaultOptions "ClearState",
         "Clear the state of the provider on startup.", []⟩]
      else [])
  ++ [⟨"enable-resource-cache", .bool, .opt "EnableResourceCache", .fromDefaultOptions "EnableResourceCache",
       "Enable controller runtime resource cache.", []⟩,
      ⟨"wipe-with-zeroes", .bool, .opt "WipeWithZeroes", .fromDefaultOptions "WipeWithZeroes",
       "When wiping a machine, write zeroes to the whole disk instead doing a fast wipe.", []⟩,
      ⟨"disable-dhcp-proxy", .bool, .opt "DisableDHCPProxy", .fromDefaultOptions "DisableDHCPProxy",
       "Disable the DHCP proxy server.", []⟩,
      ⟨"tls-enabled", .bool, .opt "TLS.Enabled", .fromDefaultOptions "TLS.Enabled",
       "Enable TLS for the API server.", []⟩,
      ⟨"tls-api-port", .int, .opt "TLS.APIPort", .fromDefaultOptions "TLS.APIPort",
       "The port to run the API server on when using TLS.", []⟩,
      ⟨"tls-agent-skip-verify", .bool, .opt "TLS.AgentSkipVerify", .fromDefaultOptions "TLS.AgentSkipVerify",
       "Make the Talos agent GRPC client skip TLS verification when connecting to the provider.", []⟩,
      ⟨"tls-ca-ttl", .duration, .opt "TLS.CATTL", .fromDefaultOptions "TLS.CATTL", "CA certificate TTL.", []⟩,
      ⟨"tls-cert-ttl", .duration, .opt "TLS.CertTTL", .fromDefaultOptions "TLS.CertTTL",
       "TTL for the generated ephemeral certificates using the CA certificate.", []⟩,
      ⟨"redfish-use-always", .bool, .opt "Redfish.UseAlways", .fromDefaultOptions "Redfish.UseAlways",
       "Always use Redfish for power management.", []⟩,
      ⟨"redfish-use-when-available", .bool, .opt "Redfish.UseWhenAvailable", .fromDefaultOptions "Redfish.UseWhenAvailable",
       "Use Redfish for power management when available.", []⟩,
      ⟨"redfish-use-https", .bool, .opt "Redfish.UseHTTPS", .fromDefaultOptions "Redfish.UseHTTPS",
       "Use HTTPS for Redfish connections.", []⟩,
      ⟨"redfish-insecure-skip-tls-verify", .bool, .opt "Redfish.InsecureSkipTLSVerify", .fromDefaultOptions "Redfish.InsecureSkipTLSVerify",
       "Skip TLS verification when connecting to Redfish.", []⟩,
      ⟨"redfish-port", .int, .opt "Redfish.Port", .fromDefaultOptions "Redfish.Port",
       "The port to connect to Redfish.", []⟩,
      ⟨"redfish-set-boot-source-override-mode", .bool, .opt "Redfish.SetBootSourceOverrideMode", .fromDefaultOptions "Redfish.SetBootSourceOverrideMode",
       "Set the boot source override mode field when using Redfish for power management. Some Redfish implementations require this field to be unset.", []⟩]

/-- pflag value resolution for a string flag: an explicitly supplied value
wins, otherwise the registered default is used. -/
def stringFlagValue (explicit : Option String) (dflt : String) : String :=
  explicit.getD dflt

example : strContains "Skip TLS verification when connecting to Redfish." "connecting to" = true := by decide
example : strContains "Skip TLS verification when connecting to Redfish." "server" = false := by decide
example : ((registeredFlags false "").map (fun f => f.name)).length = 34 := by decide
example : ((registeredFlags true "").map (fun f => f.name)).length = 35 := by decide

/-- The `TLS` sub-structure of `provider.Options`, with the fields `init`
assigns (durations in nanoseconds, as Go's `time.Duration`). -/
structure TLSOptions where
  Enabled : Bool
  APIPort : Int
  AgentSkipVerify : Bool
  CATTL : Int
  CertTTL : Int
  deriving DecidableEq

/-- The `Redfish` sub-structure of `provider.Options`, with the fields `init`
assigns. -/
structure RedfishOptions where
  UseAlways : Bool
  UseWhenAvailable : Bool
  UseHTTPS : Bool
  InsecureSkipTLSVerify : Bool
  Port : Int
  SetBootSourceOverrideMode : Bool
  deriving DecidableEq

/-- `provider.Options`, restricted to the fields the entrypoint assigns via
flag registrations. -/
structure Options where
  APIListenAddress : String
  APIAdvertiseAddress : String
  APIPort : Int
  OmniAPIEndpoint : String
  Name : String
  Description : String
  UseLocalBootAssets : Bool
  DHCPProxyIfaceOrIP : String
  ImageFactoryBaseURL : String
  ImageFactoryPXEBaseURL : String
  AgentModeTalosVersion : String
  AgentTestMode : Bool
  APIPowerMgmtStateDir : String
  BootFromDiskMethod : String
  IPMIPXEBootMode : String
  MachineLabels : List String
  InsecureSkipTLSVerify : Bool
  MinRebootInterval : Int
  ClearState : Bool
  EnableResourceCache : Bool
  WipeWithZeroes : Bool
  DisableDHCPProxy : Bool
  TLS : TLSOptions
  Redfish : RedfishOptions
  deriving DecidableEq

/-- What the entrypoint hands to the provider package while executing:
the arguments of every `provider.New` call and the context of every
`prov.Run` call. -/
structure EntryTrace where
  newCalls : List Options
  provRunCtxs : List Ctx
  deriving DecidableEq

/-- The error wrapping `run` applies to a `prov.Run` failure:
`fmt.Errorf("failed to run provider: %w", err)` on `some`, and `nil`
propagated on `none`. -/
def wrapProv : Option GoError → Option GoError
  | some e => some (.wrap "failed to run provider" e)
  | none => none

/-- `run(ctx, logger)`: builds the provider with `provider.New(providerOptions,
logger)` and calls `prov.Run(ctx)`, wrapping a failure.  `new` is the
`provider.New` collaborator, abstracted as the `Run` behaviour of the
provider it returns; the trace records that `New` is called once with
`opts` and `Run` once with `ctx`. -/
def run (opts : Options) (new : Options → Ctx → Option GoError) (ctx : Ctx) :
    EntryTrace × Option GoError :=
  (⟨[opts], [ctx]⟩, wrapProv (new opts ctx))

/-- `rootCmd.RunE`: initialises the logger (failure is wrapped as
`"failed to create logger"` and `run` is never reached), then calls
`run(cmd.Context(), logger)`.  `loggerInitErr` is the result of
`initLogger()`. -/
def rootCmdRunE (loggerInitErr : Option GoError) (opts : Options)
    (new : Options → Ctx → Option GoError) (cmdCtx : Ctx) :
    EntryTrace × Option GoError :=
  match loggerInitErr with
  | some e => (⟨[], []⟩, some (.wrap "failed to create logger" e))
  | none => run opts new cmdCtx

/-- `cobra.NoArgs`: argument validation accepting exactly zero positional
arguments. -/
def cobraNoArgs (args : List String) : Bool :=
  args.isEmpty

/-- Result of executing the cobra command: argument validation failed, or
`RunE` completed with its result. -/
inductive CmdOutcome
  | argError
  | completed (result : Option GoError)
  deriving DecidableEq

/-- cobra's `ExecuteContext(ctx)`: validate the positional arguments with the
command's `Args` validator; on success invoke `RunE` with `cmd.Context() = ctx`,
otherwise fail without invoking `RunE`. -/
def executeContext (argsValid : List String → Bool)
    (runE : Ctx → EntryTrace × Option GoError) (ctx : Ctx) (args : List String) :
    EntryTrace × CmdOutcome :=
  if argsValid args then
    ((runE ctx).1, .completed (runE ctx).2)
  else
    (⟨[], []⟩, .argError)

/-- The context built by `runCmd`:
`signal.NotifyContext(context.Background(), syscall.SIGTERM, os.Interrupt)`. -/
def runCmdCtx : Ctx :=
  notifyContext backgroundCtx [.sigterm, .interrupt]

/-- `runCmd()`: builds the signal-notified context and executes `rootCmd`
with it (`rootCmd.ExecuteContext(ctx)`), with `Args: cobra.NoArgs` and the
`RunE` above.  `args` are the positional arguments after flag parsing. -/
def runCmd (loggerInitErr : Option GoError) (opts : Options)
    (new : Options → Ctx → Option GoError) (args : List String) :
    EntryTrace × CmdOutcome :=
  executeContext cobraNoArgs (rootCmdRunE loggerInitErr opts new) runCmdCtx args

/-- The error value `runCmd` returns to `main`: cobra surfaces argument
validation failure as an error, otherwise `RunE`'s result is propagated. -/
def CmdOutcome.toError : CmdOutcome → Option GoError
  | .argError => some (.base "arguments validation failed")
  | .completed r => r

/-- `main()`: calls `runCmd()` and exits fatally via `log.Fatalf` exactly
when it returned a non-nil error. -/
def mainFatal (loggerInitErr : Option GoError) (opts : Options)
    (new : Options → Ctx → Option GoError) (args : List String) : Bool :=
  ((runCmd loggerInitErr opts new args).2.toError).isSome

/-- A flag whose usage text says it skips TLS certificate verification
(the three such usages read "Skip TLS verification ..." or
"... skip TLS verification ..."). -/
def skipVerifyMentioned (f : CmdFlag) : Bool :=
  strContains f.usage "kip TLS verification"

/-- A usage text describing a client-side connection ("... connecting to ..."). -/
def clientConnectionUsage (f : CmdFlag) : Bool :=
  strContains f.usage "connecting to"

/-- A usage text mentioning a server. -/
def mentionsServer (f : CmdFlag) : Bool :=
  strContains f.usage "server"


set_option maxRecDepth 100000

/-- C1: the post-install boot-from-disk behaviour offered by the
configuration surface has exactly three valid values — iPXE exit,
not-found (404), and SAN-disk — and the `boot-from-disk-method` option is
registered exactly once, as a single string value (`StringVar`), consumed
at startup into `providerOptions.BootFromDiskMethod`. -/
theorem bootFromDiskMethod_flag_exactly_three_valid_values :
    ∀ (d : Bool) (env : String),
      ((registeredFlags d env).filter (fun f => f.name == "boot-from-disk-method")).map
          (fun f => (f.kind, f.target, f.usageArgs))
        = [(.string, .opt "BootFromDiskMethod",
            [.bootFromDiskMethods bootFromDiskMethodChoices])]
      ∧ (∀ m : BootFromDiskMethod, m ∈ bootFromDiskMethodChoices)
      ∧ bootFromDiskMethodChoices.Nodup
      ∧ bootFromDiskMethodChoices.length = 3 := by
  intro d env
  refine ⟨by cases d <;> rfl, ?_, by decide, by decide⟩
  intro m
  cases m <;> decide

/-- C2: the PXE boot-mode selection for IPMI network boot has exactly two
valid values — BIOS and UEFI — and a single configured default
(`provider.DefaultOptions.IPMIPXEBootMode`) is consumed at startup via the
`ipmi-pxe-boot-mode` option, registered exactly once as a single string
value into `providerOptions.IPMIPXEBootMode`. -/
theorem ipmiPXEBootMode_flag_exactly_two_valid_values :
    ∀ (d : Bool) (env : String),
      ((registeredFlags d env).filter (fun f => f.name == "ipmi-pxe-boot-mode")).map
          (fun f => (f.kind, f.target, f.dflt, f.usageArgs))
        = [(.string, .opt "IPMIPXEBootMode", .fromDefaultOptions "IPMIPXEBootMode",
            [.pxeBootModes pxeBootModeChoices])]
      ∧ (∀ m : BootMode, m ∈ pxeBootModeChoices)
      ∧ pxeBootModeChoices.Nodup
      ∧ pxeBootModeChoices.length = 2 := by
  intro d env
  refine ⟨by cases d <;> rfl, ?_, by decide, by decide⟩
  intro m
  cases m <;> decide

/-- C3, counterexample to the claim as stated: the registered options whose
usage says they skip TLS verification are exactly three —
`insecure-skip-tls-verify`, `tls-agent-skip-verify` and
`redfish-insecure-skip-tls-verify` — so the third one falls outside the
claim's enumeration of `tls-agent-skip-verify` and
`insecure-skip-tls-verify` (shown here on a non-debug build with an empty
`OMNI_ENDPOINT`). -/
theorem skipVerify_flags_not_limited_to_two :
    ((registeredFlags false "").filter skipVerifyMentioned).map (fun f => f.name)
      = ["insecure-skip-tls-verify", "tls-agent-skip-verify",
         "redfish-insecure-skip-tls-verify"]
    ∧ ((registeredFlags false "").any (fun f =>
        skipVerifyMentioned f
        && !(f.name == "tls-agent-skip-verify")
        && !(f.name == "insecure-skip-tls-verify"))) = true := by
  exact ⟨by rfl, by rfl⟩

/-- C3, amended: every registered option that skips TLS verification is one
of `tls-agent-skip-verify`, `insecure-skip-tls-verify` or
`redfish-insecure-skip-tls-verify`; each of their usages describes a
client-side connection ("connecting to ...") and none mentions a server,
so no registered option disables certificate verification for the
provider's server role. -/
theorem skipVerify_flags_client_role_only :
    ∀ (d : Bool) (env : String),
      ((registeredFlags d env).all (fun f =>
        !(skipVerifyMentioned f)
        || ((f.name == "tls-agent-skip-verify"
             || f.name == "insecure-skip-tls-verify"
             || f.name == "redfish-insecure-skip-tls-verify")
            && clientConnectionUsage f
            && !(mentionsServer f)))) = true := by
  intro d env
  cases d <;> rfl

/-- C4: the `clear-state` option is registered if and only if the build is a
debug build (`constants.IsDebugBuild`), so in a non-debug build no
invocation of the command can enable state clearing; when registered it is
a boolean flag writing `providerOptions.ClearState`. -/
theorem clearState_flag_iff_debug_build :
    ∀ (d : Bool) (env : String),
      ((registeredFlags d env).any (fun f => f.name == "clear-state")) = d
      ∧ ((registeredFlags true env).filter (fun f => f.name == "clear-state")).map
          (fun f => (f.kind, f.target, f.dflt))
        = [(.bool, .opt "ClearState", .fromDefaultOptions "ClearState")] := by
  intro d env
  exact ⟨by cases d <;> rfl, by rfl⟩

/-- C5: whether the Redfish boot source override mode field is set is
operator-configurable through the dedicated boolean option
`redfish-set-boot-source-override-mode`, registered exactly once, writing
`providerOptions.Redfish.SetBootSourceOverrideMode` and defaulting to
`provider.DefaultOptions.Redfish.SetBootSourceOverrideMode`. -/
theorem redfishSetBootSourceOverrideMode_dedicated_bool_flag :
    ∀ (d : Bool) (env : String),
      ((registeredFlags d env).filter
          (fun f => f.name == "redfish-set-boot-source-override-mode")).map
          (fun f => (f.kind, f.target, f.dflt))
        = [(.bool, .opt "Redfish.SetBootSourceOverrideMode",
            .fromDefaultOptions "Redfish.SetBootSourceOverrideMode")] := by
  intro d env
  cases d <;> rfl

/-- C6: `runCmd` builds the root context with
`signal.NotifyContext(context.Background(), SIGTERM, os.Interrupt)`, so it
is cancelled exactly by SIGTERM or an interrupt; that same context is
passed through `rootCmd.ExecuteContext` and `cmd.Context()` into `run` and
on to `prov.Run`, which is invoked exactly once with it. -/
theorem signal_context_cancels_and_reaches_provider_run :
    ∀ (opts : Options) (new : Options → Ctx → Option GoError),
      (runCmd none opts new []).1.provRunCtxs = [runCmdCtx]
      ∧ runCmdCtx = notifyContext backgroundCtx [.sigterm, .interrupt]
      ∧ (∀ s : Signal, runCmdCtx.cancelledBy s = (s == .sigterm || s == .interrupt)) := by
  intro opts new
  refine ⟨rfl, rfl, ?_⟩
  intro s
  cases s <;> rfl

/-- C7: `run` returns `nil` exactly when `prov.Run` returns `nil`; on a
provider failure `e` it returns `fmt.Errorf("failed to run provider: %w", e)`,
which unwraps back to `e`; and `main` exits fatally (via `log.Fatalf`)
exactly when the command returned a non-nil error. -/
theorem run_error_propagation_and_main_fatal :
    ∀ (opts : Options) (new : Options → Ctx → Option GoError) (ctx : Ctx),
      ((run opts new ctx).2.isNone = (new opts ctx).isNone)
      ∧ ((run opts new ctx).2 = wrapProv (new opts ctx))
      ∧ (∀ e : GoError,
           wrapProv (some e) = some (.wrap "failed to run provider" e)
           ∧ GoError.unwrap (.wrap "failed to run provider" e) = some e)
      ∧ wrapProv none = none
      ∧ (∀ (le : Option GoError) (args : List String),
           mainFatal le opts new args
             = ((runCmd le opts new args).2.toError).isSome) := by
  intro opts new ctx
  refine ⟨?_, rfl, fun e => ⟨rfl, rfl⟩, rfl, fun le args => rfl⟩
  cases h : new opts ctx <;> simp [run, wrapProv, h]

/-- C8: every registered flag other than `id` and `debug` writes a field of
the single `providerOptions` value; the listed option groups are all
present on the flag surface; and `run` hands the snapshot to
`provider.New` exactly once, the provider that runs being built from
exactly that value. -/
theorem options_single_immutable_snapshot_handoff :
    ∀ (d : Bool) (env : String),
      ((registeredFlags d env).all (fun f =>
          f.name == "id" || f.name == "debug" || f.target.isOpt)) = true
      ∧ (["api-listen-address", "api-advertise-address", "api-port",
          "tls-enabled", "tls-api-port", "tls-ca-ttl", "tls-cert-ttl",
          "redfish-use-always", "redfish-use-when-available",
          "redfish-use-https", "redfish-insecure-skip-tls-verify",
          "redfish-port", "redfish-set-boot-source-override-mode",
          "boot-from-disk-method", "ipmi-pxe-boot-mode",
          "min-reboot-interval", "machine-labels"].all (fun n =>
            (registeredFlags d env).any (fun f => f.name == n))) = true
      ∧ (∀ (opts : Options) (new : Options → Ctx → Option GoError) (ctx : Ctx),
           (run opts new ctx).1.newCalls = [opts]
           ∧ (run opts new ctx).2 = wrapProv (new opts ctx)) := by
  intro d env
  exact ⟨by cases d <;> rfl, by cases d <;> rfl, fun opts new ctx => ⟨rfl, rfl⟩⟩

/-- C9: the `omni-api-endpoint` option is a string flag whose registered
default is the value of the `OMNI_ENDPOINT` environment variable read at
flag-registration time (empty when the variable is unset), and pflag
resolution lets an explicitly supplied flag value override that default. -/
theorem omniAPIEndpoint_env_default_and_override :
    ∀ (d : Bool) (envMap : String → Option String),
      ((registeredFlags d (getenv envMap "OMNI_ENDPOINT")).filter
          (fun f => f.name == "omni-api-endpoint")).map
          (fun f => (f.kind, f.target, f.dflt))
        = [(.string, .opt "OmniAPIEndpoint", .lit ((envMap "OMNI_ENDPOINT").getD ""))]
      ∧ (∀ dflt : String, stringFlagValue none dflt = dflt)
      ∧ (∀ (v dflt : String), stringFlagValue (some v) dflt = v) := by
  intro d envMap
  exact ⟨by cases d <;> rfl, fun dflt => rfl, fun v dflt => rfl⟩

/-- C10: any invocation with one or more positional arguments fails
`cobra.NoArgs` validation: cobra reports an argument error, `provider.New`
is never called and `prov.Run` is never started. -/
theorem positional_args_rejected_before_run :
    ∀ (le : Option GoError) (opts : Options) (new : Options → Ctx → Option GoError)
      (a : String) (rest : List String),
      cobraNoArgs (a :: rest) = false
      ∧ (runCmd le opts new (a :: rest)).1.newCalls = []
      ∧ (runCmd le opts new (a :: rest)).1.provRunCtxs = []
      ∧ (runCmd le opts new (a :: rest)).2 = .argError := by
  intro le opts new a rest
  exact ⟨rfl, rfl, rfl, rfl⟩
